import Mathlib

/-!
Shallow embedding of `src/examplesource/c/main.c` from mbierlee/preprocessor.

The C source:

  #include "logging.h"
  #include "network.h"

  int main()
  {
  #ifdef ENABLE_NETWORKING
      printDebug("Connecting to network.");
      makeConnection();
  #else
      #error "Network connection disabled!"
  #endif
  }

We model the build-time capability flag (`ENABLE_NETWORKING` defined or not),
the preprocessing/build step (enabled: a binary running the straight-line
body; disabled: a fatal `#error` diagnostic and no binary), and the runtime
behaviour of the enabled body as a trace of observable facility calls.
The two facilities (`printDebug`, `makeConnection`) are external; their
outcomes are supplied by an environment oracle.
-/

/-- Build-time capability flag: whether `ENABLE_NETWORKING` is defined. -/
inductive Capability
  | Enabled
  | Disabled
deriving DecidableEq, Repr

/-- Observable side effects of the bootstrap: one debug-log emission,
one connection-establishment attempt. -/
inductive Event
  | log (msg : String)
  | connect
deriving DecidableEq, Repr

/-- Outcome signalled by the external Connection Facility's
`makeConnection` call. -/
inductive ConnResult
  | success
  | failure
deriving DecidableEq, Repr

/-- Environment oracle for the two external facilities: the internal outcome
experienced by the logging backend (invisible to the caller, since
`printDebug` returns `void`), and the result signalled by `makeConnection`. -/
structure Env where
  logOutcome : Bool
  connResult : ConnResult
deriving DecidableEq, Repr

/-- The constant message passed to `printDebug` at main.c line 7. -/
def connectionMessage : String := "Connecting to network."

/-- External `printDebug(msg)`: emits one log event onto the trace and
returns `void` (unit); whatever the logging backend experiences internally
(`env.logOutcome`) is not visible to the caller. -/
def printDebug (msg : String) (tr : List Event) : List Event × Unit :=
  (tr ++ [Event.log msg], ())

/-- External `makeConnection()`: emits one connect event onto the trace and
signals the environment-determined result. -/
def makeConnection (env : Env) (tr : List Event) : List Event × ConnResult :=
  (tr ++ [Event.connect], env.connResult)

/-- Result of one process run: the trace of facility calls, in order, and
the process exit status. -/
structure RunResult where
  trace : List Event
  exitStatus : Nat
deriving DecidableEq, Repr

/-- The enabled-variant `main` (main.c lines 4-12 with `ENABLE_NETWORKING`
defined): call `printDebug("Connecting to network.")`, discard its (void)
result, call `makeConnection()`, discard its returned result (line 8 ends
in `;` with no use of the value), then fall off the end of `main`; by
C99 5.1.2.2.3 reaching the closing `}` of `main` returns 0. -/
def mainEnabled (env : Env) : RunResult :=
  let p := printDebug connectionMessage []
  let c := makeConnection env p.fst
  { trace := c.fst, exitStatus := 0 }

/-- `int main()` takes no parameters: the process-level entry discards the
argument vector the OS supplies and runs `mainEnabled`. -/
def processMain (args : List String) (env : Env) : RunResult :=
  mainEnabled env

/-- Result of the build step for a given capability flag. -/
inductive BuildResult
  | binary (run : Env → RunResult)
  | buildError (diagnostic : String)

/-- Whether the build produced a runnable binary artifact. -/
def BuildResult.producesBinary : BuildResult → Prop
  | BuildResult.binary _ => True
  | BuildResult.buildError _ => False

/-- The preprocessing/build step: with `ENABLE_NETWORKING` defined the
enabled body is compiled; otherwise the `#error` directive at main.c
line 10 aborts the build with its diagnostic and no binary is produced. -/
def build : Capability → BuildResult
  | Capability.Enabled => BuildResult.binary mainEnabled
  | Capability.Disabled => BuildResult.buildError "Network connection disabled!"

/-! ### Small-step view of the enabled body

The enabled `main` is straight-line code; we also give it a program-counter
machine to state the temporal claims (terminality of `Done`, termination). -/

/-- Program counter of the enabled body: before line 7, between lines 7
and 8, and after line 8 (the terminal `Done` state of the spec's state
machine). -/
inductive PC
  | start
  | afterLog
  | done
deriving DecidableEq, Repr

/-- One step of the enabled body: each non-terminal program point performs
exactly one facility call and advances; `done` has no step. The environment
does not appear: no instruction branches on any runtime value. -/
def step : PC → Option (PC × Event)
  | PC.start => some (PC.afterLog, Event.log connectionMessage)
  | PC.afterLog => some (PC.done, Event.connect)
  | PC.done => none

/-- Run the machine for at most `fuel` steps, returning the final program
counter and the emitted trace. -/
def exec : Nat → PC → PC × List Event
  | 0, pc => (pc, [])
  | Nat.succ n, pc =>
    match step pc with
    | none => (pc, [])
    | some (pc2, e) =>
      let r := exec n pc2
      (r.fst, e :: r.snd)

/-- The small-step machine agrees with the direct trace semantics. -/
theorem exec_agrees_mainEnabled (env : Env) :
    (exec 2 PC.start).snd = (mainEnabled env).trace := by
  rfl

/-- Helper: the enabled trace, computed. -/
theorem mainEnabled_trace (env : Env) :
    (mainEnabled env).trace = [Event.log connectionMessage, Event.connect] :=
  rfl

/-- Helper: no step exists from `done`, for any fuel. -/
theorem exec_done_fixed (n : Nat) : exec n PC.done = (PC.done, []) := by
  cases n <;> rfl

/-! ### Claims -/

/-- C1: in the Enabled variant, every execution's trace is exactly
`[log "Connecting to network.", connect]`: exactly one logging call,
exactly one connection call, the log strictly before the connect, with no
repetition or interleaving. -/
theorem enabled_trace_is_log_then_connect (env : Env) :
    (mainEnabled env).trace = [Event.log connectionMessage, Event.connect] ∧
    ((mainEnabled env).trace.count (Event.log connectionMessage) = 1 ∧
      (mainEnabled env).trace.count Event.connect = 1) := by
  refine ⟨rfl, ?_, ?_⟩ <;> rfl

/-- Witness for C1 at a concrete environment. -/
theorem enabled_trace_is_log_then_connect_witness :
    (mainEnabled ⟨true, ConnResult.success⟩).trace =
      [Event.log connectionMessage, Event.connect] :=
  (enabled_trace_is_log_then_connect ⟨true, ConnResult.success⟩).left

/-- C2: with the capability disabled, the build fails with the fatal
diagnostic `"Network connection disabled!"` (naming the disabled networking
capability) and produces no binary artifact. -/
theorem disabled_build_fails :
    build Capability.Disabled =
      BuildResult.buildError "Network connection disabled!" ∧
    ¬ (build Capability.Disabled).producesBinary := by
  exact ⟨rfl, fun h => h⟩

/-- The exit contract the claim asserts, following the spec's words: the
exit status indicates success (0) exactly when the Connection Facility
signalled success, and indicates failure (nonzero) when it signalled
failure. -/
def specExitContract (env : Env) : Prop :=
  match env.connResult with
  | ConnResult.success => (mainEnabled env).exitStatus = 0
  | ConnResult.failure => (mainEnabled env).exitStatus ≠ 0

/-- C3 counterexample: when the Connection Facility signals failure, the
process exit status is still 0, so the exit does not indicate the failure;
the claimed exit contract is violated. -/
theorem exit_contract_fails_on_failure :
    ¬ specExitContract ⟨true, ConnResult.failure⟩ := by
  intro h
  exact h rfl

/-- C3 amended: the enabled variant's exit status is 0 for every outcome of
the Connection Facility; `makeConnection`'s result is discarded at main.c
line 8 and control falls off the end of `main`, so a connection failure is
not propagated to the exit status. -/
theorem exit_status_always_zero (env : Env) :
    (mainEnabled env).exitStatus = 0 := by
  rfl

/-- C4: every log event in the enabled trace carries the constant message
`"Connecting to network."`, and that log event does occur. -/
theorem log_message_is_constant (env : Env) :
    (∀ m : String, Event.log m ∈ (mainEnabled env).trace →
      m = connectionMessage) ∧
    Event.log connectionMessage ∈ (mainEnabled env).trace := by
  constructor
  · intro m hm
    rw [mainEnabled_trace] at hm
    rcases List.mem_cons.mp hm with h1 | h2
    · cases h1
      rfl
    · rcases List.mem_cons.mp h2 with h3 | h4
      · cases h3
      · cases h4
  · rw [mainEnabled_trace]
    exact List.mem_cons_self _ _

/-- Witness for C4 at a concrete environment. -/
theorem log_message_is_constant_witness :
    Event.log connectionMessage ∈
      (mainEnabled ⟨false, ConnResult.failure⟩).trace :=
  (log_message_is_constant ⟨false, ConnResult.failure⟩).right

/-- C5: the outcome experienced by the logging backend never aborts the
bootstrap: whatever `logOutcome` is, the connection attempt still occurs,
the run result does not depend on the logging outcome at all, and the
bootstrap does not fail (exit status 0). -/
theorem logging_outcome_cannot_abort (e1 e2 : Env)
    (h : e1.connResult = e2.connResult) :
    mainEnabled e1 = mainEnabled e2 ∧
    Event.connect ∈ (mainEnabled e1).trace ∧
    (mainEnabled e1).exitStatus = 0 := by
  refine ⟨rfl, ?_, rfl⟩
  rw [mainEnabled_trace]
  exact List.mem_cons_of_mem _ (List.mem_cons_self _ _)

/-- Witness for C5: two environments differing only in the logging outcome
yield identical runs, with the connection performed. -/
theorem logging_outcome_cannot_abort_witness :
    mainEnabled ⟨true, ConnResult.success⟩ =
      mainEnabled ⟨false, ConnResult.success⟩ ∧
    Event.connect ∈ (mainEnabled ⟨true, ConnResult.success⟩).trace ∧
    (mainEnabled ⟨true, ConnResult.success⟩).exitStatus = 0 :=
  logging_outcome_cannot_abort ⟨true, ConnResult.success⟩
    ⟨false, ConnResult.success⟩ rfl

/-- C6: regardless of the Connection Facility's outcome, the connection
operation occurs exactly once in the trace (no retry) and the logging call
occurs exactly once (no second log emission after a failure). -/
theorem connect_called_exactly_once (env : Env) :
    (mainEnabled env).trace.count Event.connect = 1 ∧
    (mainEnabled env).trace.count (Event.log connectionMessage) = 1 := by
  exact ⟨rfl, rfl⟩

/-- Witness for C6 at the failure outcome, where the claim bites. -/
theorem connect_called_exactly_once_witness :
    (mainEnabled ⟨true, ConnResult.failure⟩).trace.count Event.connect = 1 :=
  (connect_called_exactly_once ⟨true, ConnResult.failure⟩).left

/-- C7: the enabled bootstrap has exactly two observable side effects — one
log emission and one connection attempt, and nothing else — and reads no
process arguments: runs under any two argument vectors are identical. -/
theorem two_effects_no_input (args1 args2 : List String) (env : Env) :
    (processMain args1 env).trace.length = 2 ∧
    (processMain args1 env).trace =
      [Event.log connectionMessage, Event.connect] ∧
    processMain args1 env = processMain args2 env := by
  exact ⟨rfl, rfl, rfl⟩

/-- C8: `Done` is terminal: once the connection attempt at `afterLog` has
resolved the machine is in `done`, no step exists from `done`, and running
any additional fuel from `done` performs no further bootstrap action. -/
theorem done_is_terminal :
    (exec 2 PC.start).fst = PC.done ∧
    step PC.done = none ∧
    ∀ n : Nat, exec n PC.done = (PC.done, []) := by
  refine ⟨rfl, rfl, fun n => ?_⟩
  cases n <;> rfl

/-- C9: the exit status does not depend on the connection result: any two
runs, whatever their environments (in particular, runs whose connection
attempts have different outcomes), produce the same exit status, namely 0. -/
theorem exit_status_independent_of_outcome (e1 e2 : Env) :
    (mainEnabled e1).exitStatus = (mainEnabled e2).exitStatus ∧
    (mainEnabled e1).exitStatus = 0 := by
  exact ⟨rfl, rfl⟩

/-- C10: the enabled body is straight-line: from `start` the machine halts
in `done` within 2 steps, and any fuel of at least 2 yields the same final
state and the same complete trace — `main` terminates once both facility
calls return. -/
theorem straight_line_terminates (n : Nat) (h : 2 ≤ n) :
    exec n PC.start = (PC.done, [Event.log connectionMessage, Event.connect]) := by
  obtain ⟨m, rfl⟩ : ∃ m, n = m + 2 := ⟨n - 2, by omega⟩
  show exec (m + 2) PC.start = _
  simp only [exec, step]
  rw [exec_done_fixed]

/-- Witness for C10 at fuel 3. -/
theorem straight_line_terminates_witness :
    exec 3 PC.start =
      (PC.done, [Event.log connectionMessage, Event.connect]) :=
  straight_line_terminates 3 (by decide)
